import Mathlib

/-!
Verification development for the Project Xylen trading coordinator.

The Python source under `src/coordinator/` is shallowly embedded here:
float arithmetic is modelled with `ℚ`, `None`-able values with `Option`,
stateful methods as explicit state-passing functions, and the SQLite
orders table as a list of rows keyed by `order_id`.
-/

namespace Xylen

/-! ## Order data model (`binance_client.py`, `OrderStatus`/`OrderSide`/`OrderType`/`OrderState`) -/

/-- Embeds `OrderStatus` (binance_client.py lines 31-38). -/
inductive OrderStatus
  | NEW
  | PARTIALLY_FILLED
  | FILLED
  | CANCELED
  | REJECTED
  | EXPIRED
deriving DecidableEq, Repr

/-- Terminal statuses per the spec glossary: {FILLED, CANCELED, REJECTED, EXPIRED}. -/
def OrderStatus.isTerminal : OrderStatus → Bool
  | .FILLED => true
  | .CANCELED => true
  | .REJECTED => true
  | .EXPIRED => true
  | _ => false

/-- Embeds `OrderSide` (binance_client.py lines 41-44). -/
inductive OrderSide
  | BUY
  | SELL
deriving DecidableEq, Repr

/-- Embeds `OrderType` (binance_client.py lines 47-52). -/
inductive OrderType
  | MARKET
  | LIMIT
  | STOP_MARKET
  | TAKE_PROFIT_MARKET
deriving DecidableEq, Repr

/-- Embeds the `OrderState` dataclass (binance_client.py lines 55-69). -/
structure OrderState where
  order_id : Int
  symbol : String
  side : OrderSide
  type : OrderType
  quantity : ℚ
  price : Option ℚ
  status : OrderStatus
  filled_qty : ℚ := 0
  avg_price : ℚ := 0
  timestamp : ℚ
  stop_loss_order_id : Option Int := none
  take_profit_order_id : Option Int := none
deriving DecidableEq, Repr

/-- The SQLite `orders` table: rows keyed by the `order_id` primary key. -/
def OrderStore := List OrderState

/-- Embeds `BinanceClient._save_order_state` (binance_client.py lines 628-642):
an unconditional `INSERT OR REPLACE INTO orders` keyed by `order_id`. -/
def _save_order_state (db : OrderStore) (order : OrderState) : OrderStore :=
  order :: List.filter (fun row => row.order_id != order.order_id) db

/-- Embeds the query in `BinanceClient._load_order_state` (binance_client.py
lines 644-668): `SELECT * FROM orders WHERE order_id = ?`. -/
def _load_order_state (db : OrderStore) (order_id : Int) : Option OrderState :=
  List.find? (fun row => row.order_id == order_id) db

/-- A FILLED (terminal) persisted order. -/
def orderFilled : OrderState :=
  { order_id := 1, symbol := "BTCUSDT", side := .BUY, type := .MARKET,
    quantity := 2/100, price := none, status := .FILLED,
    filled_qty := 2/100, avg_price := 50010, timestamp := 1000 }

/-- A later write for the same `order_id` carrying the non-terminal status NEW. -/
def orderDowngrade : OrderState :=
  { orderFilled with status := .NEW, filled_qty := 0, timestamp := 1001 }

/-- C1 counterexample: with order 1 stored as FILLED (terminal), a subsequent
`_save_order_state` write with status NEW (non-terminal) is NOT dropped: the
stored status becomes NEW, so the stored status does not stay FILLED. -/
theorem C1_counterexample :
    OrderStatus.isTerminal .FILLED = true
    ∧ OrderStatus.isTerminal .NEW = false
    ∧ (_load_order_state [orderFilled] 1).map OrderState.status = some .FILLED
    ∧ (_load_order_state (_save_order_state [orderFilled] orderDowngrade) 1).map
        OrderState.status = some .NEW
    ∧ ¬((_load_order_state (_save_order_state [orderFilled] orderDowngrade) 1).map
        OrderState.status = some .FILLED) := by
  refine ⟨rfl, rfl, rfl, rfl, ?_⟩
  decide

/-- C1 (amended): `_save_order_state` is an unconditional last-write-wins
replace: after saving `o`, loading `o.order_id` returns exactly `o`,
regardless of whether the previously stored status was terminal. -/
theorem C1_save_replaces (db : OrderStore) (o : OrderState) :
    _load_order_state (_save_order_state db o) o.order_id = some o := by
  simp [_load_order_state, _save_order_state]

/-! ## Risk manager (`risk_manager.py`) -/

/-- Embeds `PositionSizeMethod` (risk_manager.py lines 18-22). -/
inductive PositionSizeMethod
  | FIXED_FRACTION
  | KELLY
  | FIXED_AMOUNT
deriving DecidableEq, Repr

/-- Embeds `CircuitBreakerState` (risk_manager.py lines 25-29). -/
inductive CircuitBreakerState
  | CLOSED
  | OPEN
  | COOLDOWN
deriving DecidableEq, Repr

/-- Configuration fields read in `RiskManager.__init__` (risk_manager.py lines
93-129), with the source's default values. -/
structure RiskConfig where
  position_size_method : PositionSizeMethod := .FIXED_FRACTION
  position_size_fraction : ℚ := 10/100
  kelly_fraction : ℚ := 25/100
  max_position_size_usd : ℚ := 1000
  min_position_size_usd : ℚ := 10
  stop_loss_percent : ℚ := 2/100
  take_profit_percent : ℚ := 5/100
  max_leverage : ℚ := 5
  max_open_positions : Nat := 1
  max_daily_trades : Nat := 20
  min_trade_interval : ℚ := 300
  max_daily_loss_percent : ℚ := 10/100
  max_daily_loss_usd : ℚ := 500
  emergency_shutdown_loss_percent : ℚ := 20/100
  max_total_exposure_usd : ℚ := 5000
  circuit_breaker_consecutive_losses : Nat := 5
  circuit_breaker_cooldown : ℚ := 3600
  circuit_breaker_reset_on_win : Bool := true
deriving DecidableEq, Repr

/-- Embeds the `PositionSize` dataclass (risk_manager.py lines 60-68). -/
structure PositionSize where
  quantity : ℚ
  size_usd : ℚ
  leverage : ℚ
  method : PositionSizeMethod
  risk_percent : ℚ
  kelly_fraction : Option ℚ := none
deriving DecidableEq, Repr

/-- The method dispatch of `RiskManager.calculate_position_size`
(risk_manager.py lines 172-204), producing `(size_usd, risk_percent,
kelly_f)` before the clamps.  The Kelly guard `if win_rate and avg_win and
avg_loss and avg_loss > 0` uses Python truthiness, so `None` and `0.0`
both fail it and fall back to fixed fraction. -/
def calc_raw_size (cfg : RiskConfig) (account_balance : ℚ)
    (win_rate avg_win avg_loss : Option ℚ) : ℚ × ℚ × Option ℚ :=
  match cfg.position_size_method with
  | .FIXED_FRACTION =>
      (account_balance * cfg.position_size_fraction, cfg.position_size_fraction, none)
  | .KELLY =>
      match win_rate, avg_win, avg_loss with
      | some p, some aw, some al =>
        if p ≠ 0 ∧ aw ≠ 0 ∧ al ≠ 0 ∧ 0 < al then
          let b := |aw / al|
          let q := 1 - p
          let kelly_f := (p * b - q) / b
          let kelly_f := max 0 (min kelly_f 1)
          let kelly_f := kelly_f * cfg.kelly_fraction
          (account_balance * kelly_f, kelly_f, some kelly_f)
        else
          (account_balance * cfg.position_size_fraction, cfg.position_size_fraction, none)
      | _, _, _ =>
          (account_balance * cfg.position_size_fraction, cfg.position_size_fraction, none)
  | .FIXED_AMOUNT =>
      (cfg.max_position_size_usd,
       if 0 < account_balance then cfg.max_position_size_usd / account_balance else 0,
       none)

/-- Embeds `RiskManager.calculate_position_size` (risk_manager.py lines
146-225): cap leverage at `max_leverage`, dispatch on the sizing method
(`calc_raw_size`), clamp by `max_position_size_usd`, zero out a size below
`min_position_size_usd`, and derive the quantity. -/
def calculate_position_size (cfg : RiskConfig) (current_price account_balance : ℚ)
    (leverage : ℚ) (win_rate avg_win avg_loss : Option ℚ) : PositionSize :=
  let leverage := min leverage cfg.max_leverage
  let srk := calc_raw_size cfg account_balance win_rate avg_win avg_loss
  let size_usd := min srk.1 cfg.max_position_size_usd
  if size_usd < cfg.min_position_size_usd then
    { quantity := 0, size_usd := 0, leverage := leverage,
      method := cfg.position_size_method, risk_percent := srk.2.1,
      kelly_fraction := srk.2.2 }
  else
    { quantity := if 0 < current_price then size_usd * leverage / current_price else 0,
      size_usd := size_usd, leverage := leverage,
      method := cfg.position_size_method, risk_percent := srk.2.1,
      kelly_fraction := srk.2.2 }

/-- C6 counterexample: with the default configuration (fixed fraction 0.10,
`minPositionUsd = 10`), a balance of 50 gives a computed size of 5 USD, which
is below the minimum; the code returns `sizeUsd = 0` instead of raising it to
`minPositionUsd`, so the returned size lies strictly below the minimum. -/
theorem C6_counterexample :
    (calculate_position_size {} 50000 50 1 none none none).size_usd = 0
    ∧ ¬(({} : RiskConfig).min_position_size_usd ≤
        (calculate_position_size {} 50000 50 1 none none none).size_usd) := by
  have h : calculate_position_size {} 50000 50 1 none none none =
      { quantity := 0, size_usd := 0, leverage := 1,
        method := .FIXED_FRACTION, risk_percent := 10/100, kelly_fraction := none } := by
    unfold calculate_position_size calc_raw_size
    norm_num [min_def]
  rw [h]
  norm_num

/-- C6 (amended): the returned `sizeUsd` never exceeds `maxPositionUsd`, and is
either at least `minPositionUsd` or exactly 0 (a computed size below the
minimum is zeroed, not raised); leverage is capped at `maxLeverage` and, for a
positive price, `quantity = sizeUsd·leverage / price`. -/
theorem C6_size_clamp (cfg : RiskConfig) (price balance lev : ℚ)
    (wr aw al : Option ℚ) :
    ((calculate_position_size cfg price balance lev wr aw al).size_usd = 0
      ∨ (cfg.min_position_size_usd ≤
          (calculate_position_size cfg price balance lev wr aw al).size_usd
        ∧ (calculate_position_size cfg price balance lev wr aw al).size_usd ≤
          cfg.max_position_size_usd))
    ∧ (calculate_position_size cfg price balance lev wr aw al).leverage =
        min lev cfg.max_leverage
    ∧ (0 < price →
        (calculate_position_size cfg price balance lev wr aw al).quantity =
          (calculate_position_size cfg price balance lev wr aw al).size_usd *
            (calculate_position_size cfg price balance lev wr aw al).leverage / price) := by
  simp only [calculate_position_size]
  split_ifs with h hp
  · exact ⟨Or.inl rfl, rfl, fun _ => by simp⟩
  · exact ⟨Or.inr ⟨not_lt.mp h, min_le_right _ _⟩, rfl, fun _ => rfl⟩
  · exact ⟨Or.inr ⟨not_lt.mp h, min_le_right _ _⟩, rfl, fun hc => absurd hc hp⟩

/-- Witness for C6 (amended) at the default configuration, price 50000,
balance 50, leverage 1. -/
theorem C6_size_clamp_witness :
    ((calculate_position_size {} 50000 50 1 none none none).size_usd = 0
      ∨ (({} : RiskConfig).min_position_size_usd ≤
          (calculate_position_size {} 50000 50 1 none none none).size_usd
        ∧ (calculate_position_size {} 50000 50 1 none none none).size_usd ≤
          ({} : RiskConfig).max_position_size_usd))
    ∧ (calculate_position_size {} 50000 50 1 none none none).leverage =
        min 1 ({} : RiskConfig).max_leverage
    ∧ ((0:ℚ) < 50000 →
        (calculate_position_size {} 50000 50 1 none none none).quantity =
          (calculate_position_size {} 50000 50 1 none none none).size_usd *
            (calculate_position_size {} 50000 50 1 none none none).leverage / 50000) :=
  C6_size_clamp {} 50000 50 1 none none none

/-- Configuration for the Kelly scenario: kelly sizing, kellyFraction 0.25,
with the clamp bounds and leverage cap as parameters. -/
def kellyTestConfig (minP maxP maxLev : ℚ) : RiskConfig :=
  { position_size_method := .KELLY, kelly_fraction := 25/100,
    min_position_size_usd := minP, max_position_size_usd := maxP,
    max_leverage := maxLev }

/-- C7: with kelly sizing, equity 10000, price 50000, winRate 0.60,
avgWin 0.05, avgLoss 0.02, kellyFraction 0.25, leverage 1, and clamp
bounds that do not bind, the result is sizeUsd = 1100, quantity = 0.022,
with the scaled Kelly fraction 0.11 reported. -/
theorem C7_kelly_scenario (minP maxP maxLev : ℚ)
    (h1 : minP ≤ 1100) (h2 : 1100 ≤ maxP) (h3 : 1 ≤ maxLev) :
    calculate_position_size (kellyTestConfig minP maxP maxLev) 50000 10000 1
      (some (6/10)) (some (5/100)) (some (2/100)) =
    { quantity := 22/1000, size_usd := 1100, leverage := 1,
      method := .KELLY, risk_percent := 11/100, kelly_fraction := some (11/100) } := by
  have hraw : calc_raw_size (kellyTestConfig minP maxP maxLev) 10000
      (some (6/10)) (some (5/100)) (some (2/100)) = (1100, 11/100, some (11/100)) := by
    unfold calc_raw_size kellyTestConfig
    norm_num [abs_of_pos, min_def, max_def]
  simp only [calculate_position_size, kellyTestConfig] at hraw ⊢
  rw [hraw]
  simp only [min_eq_left h2, min_eq_left h3]
  rw [if_neg (not_lt.mpr h1), if_pos (by norm_num : (0:ℚ) < 50000)]
  norm_num

/-- Witness for C7 with minPositionUsd = 10, maxPositionUsd = 2000,
maxLeverage = 5. -/
theorem C7_kelly_scenario_witness :
    calculate_position_size (kellyTestConfig 10 2000 5) 50000 10000 1
      (some (6/10)) (some (5/100)) (some (2/100)) =
    { quantity := 22/1000, size_usd := 1100, leverage := 1,
      method := .KELLY, risk_percent := 11/100, kelly_fraction := some (11/100) } :=
  C7_kelly_scenario 10 2000 5 (by norm_num) (by norm_num) (by norm_num)

/-- C10: with the kelly method, whenever `winRate`, `avgWin`, or `avgLoss` is
missing (`None`) or equal to zero, `calculate_position_size` returns the
fixed-fraction result (only the reported method differs); in particular
`winRate = 0` yields the fixed-fraction size, not the zero Kelly size. -/
theorem C10_kelly_zero_stat_fallback (cfg : RiskConfig) (price balance lev : ℚ)
    (wr aw al : Option ℚ)
    (hm : cfg.position_size_method = .KELLY)
    (h : wr = none ∨ wr = some 0 ∨ aw = none ∨ aw = some 0 ∨ al = none ∨ al = some 0) :
    calculate_position_size cfg price balance lev wr aw al =
      { calculate_position_size { cfg with position_size_method := .FIXED_FRACTION }
          price balance lev wr aw al with method := .KELLY } := by
  have hr : calc_raw_size cfg balance wr aw al =
      (balance * cfg.position_size_fraction, cfg.position_size_fraction, none) := by
    unfold calc_raw_size
    rw [hm]
    rcases wr with _ | p <;> rcases aw with _ | w <;> rcases al with _ | l <;> simp_all
    all_goals rcases h with rfl | rfl | rfl <;> simp
  have hr' : calc_raw_size { cfg with position_size_method := .FIXED_FRACTION }
      balance wr aw al =
      (balance * cfg.position_size_fraction, cfg.position_size_fraction, none) := rfl
  simp only [calculate_position_size, hr, hr', hm]
  split_ifs with hs <;> rfl

/-- Witness for C10: kelly config, winRate = some 0. -/
theorem C10_kelly_zero_stat_fallback_witness :
    calculate_position_size (kellyTestConfig 10 2000 5) 50000 10000 1
      (some 0) (some (5/100)) (some (2/100)) =
      { calculate_position_size
          { kellyTestConfig 10 2000 5 with position_size_method := .FIXED_FRACTION }
          50000 10000 1 (some 0) (some (5/100)) (some (2/100)) with
        method := .KELLY } :=
  C10_kelly_zero_stat_fallback (kellyTestConfig 10 2000 5) 50000 10000 1
    (some 0) (some (5/100)) (some (2/100)) rfl (Or.inr (Or.inl rfl))

/-- Embeds the `Trade` dataclass fields used by `close_trade`
(risk_manager.py lines 32-43); `side` is the `'BUY'`/`'SELL'` string. -/
structure Trade where
  timestamp : ℚ
  symbol : String
  side : OrderSide
  entry_price : ℚ
  quantity : ℚ := 0
deriving DecidableEq, Repr

/-- Mutable `RiskManager` state initialized in `__init__` (risk_manager.py
lines 131-141), with the source's initial values as defaults. -/
structure RiskState where
  consecutive_losses : Nat := 0
  circuit_breaker_state : CircuitBreakerState := .CLOSED
  circuit_breaker_open_time : Option ℚ := none
  last_trade_time : Option ℚ := none
  daily_reset_time : ℚ := 0
  daily_pnl : ℚ := 0
  daily_trade_count : Nat := 0
  emergency_shutdown : Bool := false
  initial_equity : Option ℚ := none
deriving DecidableEq, Repr

/-- Embeds `RiskManager._trigger_circuit_breaker` (risk_manager.py lines
474-478); `now` stands for `time.time()`. -/
def _trigger_circuit_breaker (s : RiskState) (now : ℚ) : RiskState :=
  { s with circuit_breaker_state := .OPEN, circuit_breaker_open_time := some now }

/-- Embeds `RiskManager._reset_circuit_breaker` (risk_manager.py lines 480-484). -/
def _reset_circuit_breaker (s : RiskState) : RiskState :=
  { s with circuit_breaker_state := .CLOSED, circuit_breaker_open_time := none }

/-- Embeds `RiskManager._trigger_emergency_shutdown` (risk_manager.py lines
497-500). -/
def _trigger_emergency_shutdown (s : RiskState) : RiskState :=
  { s with emergency_shutdown := true }

/-- Embeds `RiskManager.circuit_breaker_active` (risk_manager.py lines 486-488). -/
def circuit_breaker_active (s : RiskState) : Bool :=
  s.circuit_breaker_state = .OPEN

/-- Embeds `RiskManager._check_circuit_breaker` (risk_manager.py lines 458-472):
returns whether trading is allowed, resetting the breaker when the cooldown
has elapsed.  The guard `if self.circuit_breaker_open_time:` is Python
truthiness — false for both `None` and `0.0` — rendered as `.getD 0 ≠ 0`. -/
def _check_circuit_breaker (cfg : RiskConfig) (s : RiskState) (now : ℚ) :
    Bool × RiskState :=
  if s.circuit_breaker_state = .CLOSED then (true, s)
  else if s.circuit_breaker_state = .OPEN then
    if s.circuit_breaker_open_time.getD 0 ≠ 0 then
      if now - s.circuit_breaker_open_time.getD 0 ≥ cfg.circuit_breaker_cooldown then
        (true, _reset_circuit_breaker s)
      else (false, s)
    else (false, s)
  else (false, s)

/-- Embeds `RiskManager._get_cooldown_remaining` (risk_manager.py lines
490-495), with the same `0.0`-falsy truthiness guard on
`circuit_breaker_open_time`. -/
def _get_cooldown_remaining (cfg : RiskConfig) (s : RiskState) (now : ℚ) : ℚ :=
  if s.circuit_breaker_open_time.getD 0 ≠ 0 then
    max 0 (cfg.circuit_breaker_cooldown - (now - s.circuit_breaker_open_time.getD 0))
  else 0

/-- Embeds `RiskManager._reset_daily_metrics_if_needed` (risk_manager.py lines
502-512). -/
def _reset_daily_metrics_if_needed (s : RiskState) (now : ℚ) : RiskState :=
  if now - s.daily_reset_time ≥ 86400 then
    { s with daily_reset_time := now, daily_pnl := 0, daily_trade_count := 0 }
  else s

/-- The pnl computation of `RiskManager.close_trade` (risk_manager.py lines
363-367). -/
def close_trade_pnl (trade : Trade) (exit_price : ℚ) : ℚ :=
  match trade.side with
  | .BUY => (exit_price - trade.entry_price) * trade.quantity
  | .SELL => (trade.entry_price - exit_price) * trade.quantity

/-- The consecutive-loss / circuit-breaker update of `close_trade`
(risk_manager.py lines 380-391): a loss increments the streak and may trip
the breaker; the win branch (`pnl ≥ 0`) only resets `consecutive_losses`
when `circuit_breaker_reset_on_win` is set. -/
def _update_loss_streak (cfg : RiskConfig) (s : RiskState) (pnl now : ℚ) :
    RiskState :=
  if pnl < 0 then
    let s := { s with consecutive_losses := s.consecutive_losses + 1 }
    if s.consecutive_losses ≥ cfg.circuit_breaker_consecutive_losses then
      _trigger_circuit_breaker s now
    else s
  else
    if cfg.circuit_breaker_reset_on_win then { s with consecutive_losses := 0 }
    else s

/-- The emergency-shutdown check of `close_trade` (risk_manager.py lines
393-397), guarded by the truthiness of `initial_equity`. -/
def _check_emergency (cfg : RiskConfig) (s : RiskState) : RiskState :=
  match s.initial_equity with
  | some ie =>
      if ie ≠ 0 then
        if (ie - (ie + s.daily_pnl)) / ie ≥ cfg.emergency_shutdown_loss_percent then
          _trigger_emergency_shutdown s
        else s
      else s
  | none => s

/-- Embeds `RiskManager.close_trade` (risk_manager.py lines 348-399) as a
state transformer; returns the realized pnl and the updated state. -/
def close_trade (cfg : RiskConfig) (s : RiskState) (trade : Trade)
    (exit_price now : ℚ) : ℚ × RiskState :=
  let pnl := close_trade_pnl trade exit_price
  let s := { s with daily_pnl := s.daily_pnl + pnl }
  let s := _update_loss_streak cfg s pnl now
  let s := _check_emergency cfg s
  (pnl, s)

/-- Rejection reasons of `RiskManager.validate_trade`, one constructor per
formatted rejection string (risk_manager.py lines 266-309), carrying the
numbers interpolated into the message. -/
inductive RejectReason
  | emergencyShutdown
  | circuitBreakerOpen (cooldown_remaining : ℚ)
  | dailyTradeLimit (max_trades : Nat)
  | dailyLossPercent (loss_pct max_pct : ℚ)
  | dailyLossUsd (loss max_usd : ℚ)
  | maxOpenPositions (max_positions : Nat)
  | totalExposure (new_exposure max_usd : ℚ)
  | tradeInterval (remaining : ℚ)
  | insufficientMargin (available proposed : ℚ)
deriving DecidableEq, Repr

/-- Embeds the `RiskMetrics` dataclass (risk_manager.py lines 46-57). -/
structure RiskMetrics where
  total_equity : ℚ
  available_margin : ℚ
  total_exposure : ℚ
  open_positions : Nat
  daily_pnl : ℚ := 0
  daily_trades : Nat := 0
  consecutive_losses : Nat := 0
  win_rate : ℚ := 0
deriving DecidableEq, Repr

/-- The checks of `RiskManager.validate_trade` performed after the emergency,
breaker, and daily-reset steps (risk_manager.py lines 277-312).  Python
truthiness guards (`if self.initial_equity:`, `if self.last_trade_time:`)
are rendered as `.getD 0 ≠ 0`, which is false exactly for `None` and `0.0`. -/
def _validate_daily_checks (cfg : RiskConfig) (s : RiskState) (m : RiskMetrics)
    (proposed_size_usd now : ℚ) : Bool × Option RejectReason :=
  if s.daily_trade_count ≥ cfg.max_daily_trades then
    (false, some (.dailyTradeLimit cfg.max_daily_trades))
  else if s.initial_equity.getD 0 ≠ 0 ∧ s.daily_pnl < 0 ∧
      |s.daily_pnl| / s.initial_equity.getD 0 > cfg.max_daily_loss_percent then
    (false, some (.dailyLossPercent (|s.daily_pnl| / s.initial_equity.getD 0)
        cfg.max_daily_loss_percent))
  else if s.daily_pnl < -cfg.max_daily_loss_usd then
    (false, some (.dailyLossUsd |s.daily_pnl| cfg.max_daily_loss_usd))
  else if m.open_positions ≥ cfg.max_open_positions then
    (false, some (.maxOpenPositions cfg.max_open_positions))
  else if m.total_exposure + proposed_size_usd > cfg.max_total_exposure_usd then
    (false, some (.totalExposure (m.total_exposure + proposed_size_usd)
        cfg.max_total_exposure_usd))
  else if s.last_trade_time.getD 0 ≠ 0 ∧
      now - s.last_trade_time.getD 0 < cfg.min_trade_interval then
    (false, some (.tradeInterval
        (cfg.min_trade_interval - (now - s.last_trade_time.getD 0))))
  else if proposed_size_usd > m.available_margin then
    (false, some (.insufficientMargin m.available_margin proposed_size_usd))
  else (true, none)

/-- Embeds `RiskManager.validate_trade` (risk_manager.py lines 251-312):
emergency latch, circuit breaker (whose check may reset the breaker), daily
reset, then the remaining ordered checks; returns `(is_valid,
rejection_reason)` and the updated state. -/
def validate_trade (cfg : RiskConfig) (s : RiskState) (m : RiskMetrics)
    (proposed_size_usd now : ℚ) : (Bool × Option RejectReason) × RiskState :=
  if s.emergency_shutdown then ((false, some .emergencyShutdown), s)
  else
    let cb := _check_circuit_breaker cfg s now
    if cb.1 = false then
      ((false, some (.circuitBreakerOpen (_get_cooldown_remaining cfg cb.2 now))), cb.2)
    else
      let s := _reset_daily_metrics_if_needed cb.2 now
      (_validate_daily_checks cfg s m proposed_size_usd now, s)

/-- A risk state whose circuit breaker is OPEN after five consecutive losses. -/
def breakerOpenState : RiskState :=
  { consecutive_losses := 5, circuit_breaker_state := .OPEN,
    circuit_breaker_open_time := some 1000, daily_reset_time := 1000 }

/-- A trade closed for a profit of 10 USD at exit price 110. -/
def winningTrade : Trade :=
  { timestamp := 1050, symbol := "BTCUSDT", side := .BUY,
    entry_price := 100, quantity := 1 }

/-- C2 counterexample: with `resetOnWin` configured (the default) and the
breaker OPEN, a winning `close_trade` (pnl = 10 > 0) does NOT return the
breaker to CLOSED: the state stays OPEN and `_check_circuit_breaker` still
forbids trading 100 s after opening (cooldown 3600 s not elapsed). -/
theorem C2_counterexample :
    (close_trade {} breakerOpenState winningTrade 110 1100).1 = 10
    ∧ ({} : RiskConfig).circuit_breaker_reset_on_win = true
    ∧ (close_trade {} breakerOpenState winningTrade 110 1100).2.circuit_breaker_state
        = .OPEN
    ∧ ¬((close_trade {} breakerOpenState winningTrade 110 1100).2.circuit_breaker_state
        = .CLOSED)
    ∧ (_check_circuit_breaker {}
        (close_trade {} breakerOpenState winningTrade 110 1100).2 1100).1 = false := by
  have h : close_trade {} breakerOpenState winningTrade 110 1100 =
      (10, { consecutive_losses := 0, circuit_breaker_state := .OPEN,
             circuit_breaker_open_time := some 1000, last_trade_time := none,
             daily_reset_time := 1000, daily_pnl := 10, daily_trade_count := 0,
             emergency_shutdown := false, initial_equity := none }) := by
    unfold close_trade close_trade_pnl _update_loss_streak _check_emergency
      breakerOpenState winningTrade
    norm_num
  rw [h]
  refine ⟨rfl, rfl, rfl, by simp, ?_⟩
  unfold _check_circuit_breaker
  rw [if_neg (by simp), if_pos rfl]
  norm_num

/-- The emergency-shutdown check of `close_trade` never changes the circuit
breaker fields or the loss streak. -/
theorem _check_emergency_preserves_breaker (cfg : RiskConfig) (s : RiskState) :
    (_check_emergency cfg s).circuit_breaker_state = s.circuit_breaker_state
    ∧ (_check_emergency cfg s).consecutive_losses = s.consecutive_losses := by
  unfold _check_emergency
  split
  · split_ifs <;> simp [_trigger_emergency_shutdown]
  · exact ⟨rfl, rfl⟩

/-- On a non-negative pnl, `_update_loss_streak` keeps the breaker state and,
when `circuit_breaker_reset_on_win` is set, zeroes the loss streak. -/
theorem _update_loss_streak_win (cfg : RiskConfig) (s : RiskState) (pnl now : ℚ)
    (hwin : 0 ≤ pnl) :
    (_update_loss_streak cfg s pnl now).circuit_breaker_state =
        s.circuit_breaker_state
    ∧ (cfg.circuit_breaker_reset_on_win = true →
        (_update_loss_streak cfg s pnl now).consecutive_losses = 0) := by
  unfold _update_loss_streak
  rw [if_neg (not_lt.mpr hwin)]
  split_ifs with h <;> simp [h]

/-- C2 (amended): a winning `close_trade` (pnl ≥ 0) never changes the circuit
breaker state — with `resetOnWin` it only zeroes `consecutive_losses` — and
`_check_circuit_breaker` moves the breaker back to CLOSED exactly when it was
already CLOSED, or was OPEN with a truthy (non-zero) `openedAt` and the
cooldown elapsed since it. -/
theorem C2_breaker_closes_only_on_cooldown (cfg : RiskConfig) (s : RiskState)
    (trade : Trade) (exit_price now : ℚ)
    (hwin : 0 ≤ (close_trade cfg s trade exit_price now).1) :
    (close_trade cfg s trade exit_price now).2.circuit_breaker_state =
        s.circuit_breaker_state
    ∧ (cfg.circuit_breaker_reset_on_win = true →
        (close_trade cfg s trade exit_price now).2.consecutive_losses = 0)
    ∧ ((_check_circuit_breaker cfg s now).2.circuit_breaker_state = .CLOSED ↔
        (s.circuit_breaker_state = .CLOSED ∨
          (s.circuit_breaker_state = .OPEN ∧
            match s.circuit_breaker_open_time with
            | some t => t ≠ 0 ∧ now - t ≥ cfg.circuit_breaker_cooldown
            | none => False))) := by
  have hp : 0 ≤ close_trade_pnl trade exit_price := hwin
  refine ⟨?_, ?_, ?_⟩
  · simp only [close_trade]
    rw [(_check_emergency_preserves_breaker _ _).1,
      (_update_loss_streak_win _ _ _ _ hp).1]
  · intro hw
    simp only [close_trade]
    rw [(_check_emergency_preserves_breaker _ _).2,
      (_update_loss_streak_win _ _ _ _ hp).2 hw]
  · unfold _check_circuit_breaker
    rcases hcb : s.circuit_breaker_state <;>
      rcases ht : s.circuit_breaker_open_time with _ | t
    · simp [hcb]
    · simp [hcb]
    · simp [hcb, ht]
    · simp only [hcb, ht, Option.getD_some]
      split_ifs with h1 h2 <;> simp_all [_reset_circuit_breaker]
    · simp [hcb, ht]
    · simp [hcb, ht]

/-- Witness for C2 (amended) at the concrete winning close used by the
counterexample. -/
theorem C2_breaker_closes_only_on_cooldown_witness :
    (close_trade {} breakerOpenState winningTrade 110 1100).2.circuit_breaker_state =
        breakerOpenState.circuit_breaker_state
    ∧ (({} : RiskConfig).circuit_breaker_reset_on_win = true →
        (close_trade {} breakerOpenState winningTrade 110 1100).2.consecutive_losses = 0)
    ∧ ((_check_circuit_breaker {} breakerOpenState 1100).2.circuit_breaker_state = .CLOSED ↔
        (breakerOpenState.circuit_breaker_state = .CLOSED ∨
          (breakerOpenState.circuit_breaker_state = .OPEN ∧
            match breakerOpenState.circuit_breaker_open_time with
            | some t => t ≠ 0 ∧ (1100:ℚ) - t ≥ ({} : RiskConfig).circuit_breaker_cooldown
            | none => False))) :=
  C2_breaker_closes_only_on_cooldown {} breakerOpenState winningTrade 110 1100
    (by unfold close_trade close_trade_pnl winningTrade; norm_num)

/-! ## Coordinator heartbeat loop (`coordinator.py`) and claim C3 -/

/-- Outcome of one guard evaluation of the coordinator's main loop. -/
inductive LoopAction
  | exitLoop
  | skipCycle
  | runCycle
deriving DecidableEq, Repr

/-- Embeds the guard structure of one iteration of
`TradingCoordinator._main_loop` (coordinator.py lines 215-279): the loop
runs `while self.is_running`; inside the body the only gate before
`await self._decision_cycle()` is `self.risk_manager.circuit_breaker_active()`.
The latch flag is passed in to record that the loop reads `is_running` and the
breaker but not the emergency-shutdown latch. -/
def _main_loop_step (is_running circuit_breaker_on _emergency_shutdown : Bool) :
    LoopAction :=
  if is_running = false then .exitLoop
  else if circuit_breaker_on then .skipCycle
  else .runCycle

/-- A risk state with only the emergency-shutdown latch set. -/
def emergencyLatchedState : RiskState := { emergency_shutdown := true }

/-- C3 counterexample: with the emergency latch set, the breaker inactive and
the coordinator running, the heartbeat guard still starts a decision cycle
(`runCycle`), so the loop does not exit after the latch is set. -/
theorem C3_counterexample :
    emergencyLatchedState.emergency_shutdown = true
    ∧ _main_loop_step true (circuit_breaker_active emergencyLatchedState)
        emergencyLatchedState.emergency_shutdown = .runCycle
    ∧ (LoopAction.runCycle ≠ .exitLoop) := by
  exact ⟨rfl, rfl, by decide⟩

/-- C3 (amended): the heartbeat guard is independent of the emergency latch
(the loop keeps starting decision cycles while `is_running` holds and the
breaker is inactive); the latch instead makes `validate_trade` reject every
proposed trade with the emergency-shutdown reason. -/
theorem C3_latch_does_not_stop_loop (running breaker e1 e2 : Bool)
    (cfg : RiskConfig) (s : RiskState) (m : RiskMetrics) (proposed now : ℚ)
    (hlatch : s.emergency_shutdown = true) :
    _main_loop_step running breaker e1 = _main_loop_step running breaker e2
    ∧ (validate_trade cfg s m proposed now).1 = (false, some .emergencyShutdown) := by
  refine ⟨rfl, ?_⟩
  unfold validate_trade
  rw [hlatch]
  simp

/-- Witness for C3 (amended) at a concrete latched state. -/
theorem C3_latch_does_not_stop_loop_witness :
    _main_loop_step true false true = _main_loop_step true false false
    ∧ (validate_trade {} emergencyLatchedState
        { total_equity := 10000, available_margin := 10000,
          total_exposure := 0, open_positions := 0 } 100 0).1 =
      (false, some .emergencyShutdown) :=
  C3_latch_does_not_stop_loop true false true false {} emergencyLatchedState
    { total_equity := 10000, available_margin := 10000,
      total_exposure := 0, open_positions := 0 } 100 0 rfl

/-! ## Claim C4: validate_trade fires the documented rules in order -/

/-- First matching rule of an ordered rule list: the spec's "ordered
rejection rules, first match wins" (spec §4.3.2, P6). -/
def firstMatch : List (Bool × RejectReason) → Option RejectReason
  | [] => none
  | (c, r) :: rest => if c then some r else firstMatch rest

/-- The spec's cooldown-elapsed test (§4.3.3): the breaker opened at some
instant and the cooldown has elapsed since. -/
def cooldownElapsed (cfg : RiskConfig) (s : RiskState) (now : ℚ) : Bool :=
  match s.circuit_breaker_open_time with
  | some t => now - t ≥ cfg.circuit_breaker_cooldown
  | none => false

/-- Rules 3-9 of the spec's ordered rejection list (§4.3.2), with the same
payload numbers the code interpolates into its rejection strings. -/
def specDailyRules (cfg : RiskConfig) (s : RiskState) (m : RiskMetrics)
    (proposed_size_usd now : ℚ) : List (Bool × RejectReason) :=
  [ (decide (s.daily_trade_count ≥ cfg.max_daily_trades),
      .dailyTradeLimit cfg.max_daily_trades),
    (s.initial_equity.isSome && decide (s.daily_pnl < 0) &&
        decide (|s.daily_pnl| / s.initial_equity.getD 0 > cfg.max_daily_loss_percent),
      .dailyLossPercent (|s.daily_pnl| / s.initial_equity.getD 0)
        cfg.max_daily_loss_percent),
    (decide (s.daily_pnl < -cfg.max_daily_loss_usd),
      .dailyLossUsd |s.daily_pnl| cfg.max_daily_loss_usd),
    (decide (m.open_positions ≥ cfg.max_open_positions),
      .maxOpenPositions cfg.max_open_positions),
    (decide (m.total_exposure + proposed_size_usd > cfg.max_total_exposure_usd),
      .totalExposure (m.total_exposure + proposed_size_usd)
        cfg.max_total_exposure_usd),
    (s.last_trade_time.isSome &&
        decide (now - s.last_trade_time.getD 0 < cfg.min_trade_interval),
      .tradeInterval (cfg.min_trade_interval - (now - s.last_trade_time.getD 0))),
    (decide (proposed_size_usd > m.available_margin),
      .insufficientMargin m.available_margin proposed_size_usd) ]

/-- Spec-side formulation of trade validation, following the words of spec
§4.3.2: the nine documented rules evaluated in order with first match
reported, on the daily-reset state (§4.3.5 runs the daily reset at the
start of validate). -/
def specOrderedReject (cfg : RiskConfig) (s0 : RiskState) (m : RiskMetrics)
    (proposed_size_usd now : ℚ) : Option RejectReason :=
  let s := _reset_daily_metrics_if_needed s0 now
  firstMatch
    ((s.emergency_shutdown, .emergencyShutdown) ::
     (decide (s.circuit_breaker_state = .OPEN) && !cooldownElapsed cfg s now,
       .circuitBreakerOpen (_get_cooldown_remaining cfg s now)) ::
     specDailyRules cfg s m proposed_size_usd now)

/-- The daily reset touches only the daily counters, not the latch, breaker,
equity, or last-trade fields. -/
theorem reset_preserves_nondaily (s : RiskState) (now : ℚ) :
    (_reset_daily_metrics_if_needed s now).emergency_shutdown = s.emergency_shutdown
    ∧ (_reset_daily_metrics_if_needed s now).circuit_breaker_state =
        s.circuit_breaker_state
    ∧ (_reset_daily_metrics_if_needed s now).circuit_breaker_open_time =
        s.circuit_breaker_open_time
    ∧ (_reset_daily_metrics_if_needed s now).initial_equity = s.initial_equity
    ∧ (_reset_daily_metrics_if_needed s now).last_trade_time = s.last_trade_time := by
  unfold _reset_daily_metrics_if_needed
  split_ifs <;> simp

/-- Resetting the breaker before the daily reset leaves every field the
daily checks read unchanged. -/
theorem rcb_reset_daily_eq (s : RiskState) (now : ℚ) :
    (_reset_daily_metrics_if_needed (_reset_circuit_breaker s) now).daily_trade_count
      = (_reset_daily_metrics_if_needed s now).daily_trade_count
    ∧ (_reset_daily_metrics_if_needed (_reset_circuit_breaker s) now).initial_equity
      = (_reset_daily_metrics_if_needed s now).initial_equity
    ∧ (_reset_daily_metrics_if_needed (_reset_circuit_breaker s) now).daily_pnl
      = (_reset_daily_metrics_if_needed s now).daily_pnl
    ∧ (_reset_daily_metrics_if_needed (_reset_circuit_breaker s) now).last_trade_time
      = (_reset_daily_metrics_if_needed s now).last_trade_time := by
  unfold _reset_daily_metrics_if_needed _reset_circuit_breaker
  split_ifs <;> simp_all

/-- The daily checks depend only on the four state fields they read. -/
theorem daily_checks_congr (cfg : RiskConfig) (m : RiskMetrics)
    (proposed now : ℚ) (s1 s2 : RiskState)
    (h1 : s1.daily_trade_count = s2.daily_trade_count)
    (h2 : s1.initial_equity = s2.initial_equity)
    (h3 : s1.daily_pnl = s2.daily_pnl)
    (h4 : s1.last_trade_time = s2.last_trade_time) :
    _validate_daily_checks cfg s1 m proposed now =
      _validate_daily_checks cfg s2 m proposed now := by
  unfold _validate_daily_checks
  rw [h1, h2, h3, h4]

/-- The spec's rules 3-9 depend only on the four state fields they read. -/
theorem spec_daily_rules_congr (cfg : RiskConfig) (m : RiskMetrics)
    (proposed now : ℚ) (s1 s2 : RiskState)
    (h1 : s1.daily_trade_count = s2.daily_trade_count)
    (h2 : s1.initial_equity = s2.initial_equity)
    (h3 : s1.daily_pnl = s2.daily_pnl)
    (h4 : s1.last_trade_time = s2.last_trade_time) :
    specDailyRules cfg s1 m proposed now = specDailyRules cfg s2 m proposed now := by
  unfold specDailyRules
  rw [h1, h2, h3, h4]

/-- The cooldown-remaining computation reads only the open timestamp. -/
theorem cooldown_remaining_congr (cfg : RiskConfig) (s1 s2 : RiskState) (now : ℚ)
    (h : s1.circuit_breaker_open_time = s2.circuit_breaker_open_time) :
    _get_cooldown_remaining cfg s1 now = _get_cooldown_remaining cfg s2 now := by
  unfold _get_cooldown_remaining
  rw [h]

set_option maxHeartbeats 1000000 in
/-- The code's post-reset checks agree with first-match over the spec's
rules 3-9, away from the `0.0`-truthiness corner cases. -/
theorem daily_checks_eq_first_match (cfg : RiskConfig) (s : RiskState)
    (m : RiskMetrics) (proposed now : ℚ)
    (hie : s.initial_equity ≠ some 0) (hlt : s.last_trade_time ≠ some 0) :
    _validate_daily_checks cfg s m proposed now =
      ((firstMatch (specDailyRules cfg s m proposed now)).isNone,
        firstMatch (specDailyRules cfg s m proposed now)) := by
  rcases hie2 : s.initial_equity with _ | ie <;>
    rcases hlt2 : s.last_trade_time with _ | lt0 <;>
      simp only [_validate_daily_checks, specDailyRules, firstMatch, hie2, hlt2,
        Option.isSome_some, Option.isSome_none, Option.getD_some, Option.getD_none,
        Bool.and_eq_true, decide_eq_true_eq, Bool.false_and, Bool.true_and,
        Bool.and_false, Bool.and_true] <;>
      split_ifs <;> simp_all

/-- C4: `validate_trade` reports exactly the first matching rule of the
documented ordered rule list, and accepts iff no rule matches.  The
hypotheses exclude the unreachable COOLDOWN breaker state (no code path
assigns it) and the degenerate truthiness corner cases `initial_equity ==
0.0`, `last_trade_time == 0.0`, and `circuit_breaker_open_time == 0.0`
(all three are set from positive `time.time()` / equity readings). -/
theorem C4_validate_trade_rule_order (cfg : RiskConfig) (s : RiskState)
    (m : RiskMetrics) (proposed now : ℚ)
    (hcd : s.circuit_breaker_state ≠ .COOLDOWN)
    (hbo0 : s.circuit_breaker_open_time ≠ some 0)
    (hie : s.initial_equity ≠ some 0)
    (hlt : s.last_trade_time ≠ some 0) :
    (validate_trade cfg s m proposed now).1.2 = specOrderedReject cfg s m proposed now
    ∧ ((validate_trade cfg s m proposed now).1.1 = true ↔
        specOrderedReject cfg s m proposed now = none) := by
  obtain ⟨he, hbs, hbo, hii, hll⟩ := reset_preserves_nondaily s now
  have hA := daily_checks_eq_first_match cfg (_reset_daily_metrics_if_needed s now)
    m proposed now (by rw [hii]; exact hie) (by rw [hll]; exact hlt)
  have key : (validate_trade cfg s m proposed now).1 =
      ((specOrderedReject cfg s m proposed now).isNone,
        specOrderedReject cfg s m proposed now) := by
    by_cases hes : s.emergency_shutdown
    · simp [validate_trade, specOrderedReject, firstMatch, hes, he]
    · rcases hcb : s.circuit_breaker_state with _ | _ | _
      · -- CLOSED: the breaker permits trading and the state is unchanged
        have hcbv : _check_circuit_breaker cfg s now = (true, s) := by
          unfold _check_circuit_breaker
          rw [hcb]
          simp
        simp [validate_trade, specOrderedReject, firstMatch, cooldownElapsed,
          hes, he, hbs, hcb, hcbv, hA]
      · -- OPEN: split on the opening timestamp and the cooldown
        rcases ht : s.circuit_breaker_open_time with _ | t
        · have hcbv : _check_circuit_breaker cfg s now = (false, s) := by
            unfold _check_circuit_breaker
            rw [hcb, ht]
            simp
          have hrem := cooldown_remaining_congr cfg
            (_reset_daily_metrics_if_needed s now) s now (by rw [hbo])
          simp [validate_trade, specOrderedReject, firstMatch, cooldownElapsed,
            hes, he, hbs, hbo, hcb, ht, hcbv, hrem]
        · have ht0 : t ≠ 0 := by
            rintro rfl
            exact hbo0 ht
          by_cases hel : now - t ≥ cfg.circuit_breaker_cooldown
          · have hcbv : _check_circuit_breaker cfg s now =
                (true, _reset_circuit_breaker s) := by
              unfold _check_circuit_breaker
              rw [hcb, ht]
              simp [ht0, hel]
            obtain ⟨d1, d2, d3, d4⟩ := rcb_reset_daily_eq s now
            have hbridge := daily_checks_congr cfg m proposed now
              (_reset_daily_metrics_if_needed (_reset_circuit_breaker s) now)
              (_reset_daily_metrics_if_needed s now) d1 d2 d3 d4
            simp [validate_trade, specOrderedReject, firstMatch, cooldownElapsed,
              hes, he, hbs, hbo, hcb, ht, hel, hcbv, hbridge, hA]
          · have hcbv : _check_circuit_breaker cfg s now = (false, s) := by
              unfold _check_circuit_breaker
              rw [hcb, ht]
              simp [ht0, hel]
            have hrem := cooldown_remaining_congr cfg
              (_reset_daily_metrics_if_needed s now) s now (by rw [hbo])
            simp [validate_trade, specOrderedReject, firstMatch, cooldownElapsed,
              hes, he, hbs, hbo, hcb, ht, hel, hcbv, hrem]
      · exact absurd hcb hcd
  refine ⟨by rw [key], ?_⟩
  rw [key]
  simp [Option.isNone_iff_eq_none]

/-- Witness for C4 at a concrete accepting state: default config, fresh
state with a known positive initial equity and a last trade 400 s ago. -/
theorem C4_validate_trade_rule_order_witness :
    (validate_trade {} { initial_equity := some 10000, last_trade_time := some 600 }
        { total_equity := 10000, available_margin := 10000,
          total_exposure := 0, open_positions := 0 } 100 1000).1.2 =
      specOrderedReject {} { initial_equity := some 10000, last_trade_time := some 600 }
        { total_equity := 10000, available_margin := 10000,
          total_exposure := 0, open_positions := 0 } 100 1000
    ∧ ((validate_trade {} { initial_equity := some 10000, last_trade_time := some 600 }
        { total_equity := 10000, available_margin := 10000,
          total_exposure := 0, open_positions := 0 } 100 1000).1.1 = true ↔
      specOrderedReject {} { initial_equity := some 10000, last_trade_time := some 600 }
        { total_equity := 10000, available_margin := 10000,
          total_exposure := 0, open_positions := 0 } 100 1000 = none) :=
  C4_validate_trade_rule_order {}
    { initial_equity := some 10000, last_trade_time := some 600 }
    { total_equity := 10000, available_margin := 10000,
      total_exposure := 0, open_positions := 0 } 100 1000
    (by simp) (by simp) (by simp) (by simp)

/-! ## Rate limiter (`binance_client.py`, `RateLimiter`) and claim C5 -/

/-- Mutable `RateLimiter` state (binance_client.py lines 75-80):
`self.tokens` and `self.last_update`. -/
structure RateLimiterState where
  tokens : ℚ
  last_update : ℚ
deriving DecidableEq, Repr

/-- Embeds `RateLimiter.acquire` (binance_client.py lines 82-95) for the
caller that takes the FIFO lock at instant `now`: refill from the elapsed
time (capped at `burst`), stamp `last_update := now`, then either consume a
token and return immediately, or sleep `(1 - tokens)/rate` while holding
the lock and zero the bucket.  Returns the completion instant and the new
state; the sleep does not advance `last_update`. -/
def RateLimiter.acquire (rate burst : ℚ) (s : RateLimiterState) (now : ℚ) :
    ℚ × RateLimiterState :=
  let tokens := min burst (s.tokens + (now - s.last_update) * rate)
  if tokens < 1 then
    (now + (1 - tokens) / rate, { tokens := 0, last_update := now })
  else
    (now, { tokens := tokens - 1, last_update := now })

/-- Completion instants of `n` back-to-back `acquire()` calls served in
arrival order: each caller obtains the `asyncio.Lock` when the previous
caller finishes (the lock is held across the in-`acquire` sleep). -/
def acquireTimes (rate burst : ℚ) : Nat → RateLimiterState → ℚ → List ℚ
  | 0, _, _ => []
  | n + 1, s, now =>
      let r := RateLimiter.acquire rate burst s now
      r.1 :: acquireTimes rate burst n r.2 r.1

/-- C5: running the token bucket (capacity 10, refill 10/min = 1/6 per
second) on 15 back-to-back acquires issued at t = 0 and served in arrival
order: the first ten return at t = 0, but the remaining five complete at
t = 6, 6, 12, 12, 18 — not at the 6, 12, 18, 24, 30 a bucket refilling at
10 tokens/min would give — because the sleeping acquire leaves
`last_update` at the pre-sleep instant, so the next waiter refills over
the already-slept interval a second time. -/
theorem C5_rate_limiter_schedule :
    acquireTimes (10/60) 10 15 { tokens := 10, last_update := 0 } 0 =
      [0, 0, 0, 0, 0, 0, 0, 0, 0, 0, 6, 6, 12, 12, 18]
    ∧ acquireTimes (10/60) 10 15 { tokens := 10, last_update := 0 } 0 ≠
      [0, 0, 0, 0, 0, 0, 0, 0, 0, 0, 6, 12, 18, 24, 30] := by
  have h : acquireTimes (10/60) 10 15 { tokens := 10, last_update := 0 } 0 =
      [0, 0, 0, 0, 0, 0, 0, 0, 0, 0, 6, 6, 12, 12, 18] := by
    norm_num [acquireTimes, RateLimiter.acquire, min_def]
  refine ⟨h, ?_⟩
  rw [h]
  norm_num

/-! ## Ensemble aggregator (`ensemble.py`) and claim C8 -/

/-- Embeds the fields of the `ModelPrediction` dataclass read by the
uncertainty gate (ensemble.py). -/
structure ModelPrediction where
  model_name : String
  raw_score : ℚ
  confidence : ℚ
  latency_ms : ℚ := 0
deriving DecidableEq, Repr

/-- Mean of a list of rationals (`np.mean`). -/
def listMean (l : List ℚ) : ℚ := l.sum / l.length

/-- Population variance of a list of rationals: the square of `np.std`,
which uses `ddof = 0`. -/
def npVariance (l : List ℚ) : ℚ :=
  (l.map (fun x => (x - listMean l) ^ 2)).sum / l.length

/-- Embeds `uncertainty = np.std(raw_scores) if len(raw_scores) > 1 else 0.0`
from `EnsembleEngine.aggregate_predictions`: the population standard
deviation of the raw scores, as a real number. -/
noncomputable def ensemble_uncertainty (raw_scores : List ℚ) : ℝ :=
  if 1 < raw_scores.length then Real.sqrt ((npVariance raw_scores : ℚ) : ℝ) else 0

/-- The early-HOLD reasons of `aggregate_predictions`: the
"Insufficient responding models" return and the
"High model disagreement (σ=…)" return, the latter carrying the σ the code
interpolates into the reason string. -/
inductive HoldReason
  | insufficientModels
  | modelDisagreement (sigma : ℝ)

/-- Embeds the gate prefix of `EnsembleEngine.aggregate_predictions`
(ensemble.py lines 317-393): fewer than `min_responding_models` responding
models returns HOLD with the insufficient-models reason; a raw-score
standard deviation above `uncertainty_threshold` returns HOLD with the
model-disagreement reason; otherwise (`none`) the computation continues
past the gate to calibration. -/
noncomputable def aggregate_uncertainty_gate (min_responding_models : Nat)
    (uncertainty_threshold : ℚ) (predictions : List ModelPrediction) :
    Option HoldReason :=
  if predictions.length < min_responding_models then some .insufficientModels
  else
    let uncertainty := ensemble_uncertainty (predictions.map ModelPrediction.raw_score)
    if uncertainty > (uncertainty_threshold : ℝ) then
      some (.modelDisagreement uncertainty)
    else none

/-- The three predictions of scenario S4, with raw scores 0.9, −0.8, 0.1. -/
def s4Predictions : List ModelPrediction :=
  [ { model_name := "model_a", raw_score := 9/10, confidence := 9/10 },
    { model_name := "model_b", raw_score := -8/10, confidence := 8/10 },
    { model_name := "model_c", raw_score := 1/10, confidence := 6/10 } ]

/-- The raw-score variance of scenario S4 is exactly 217/450 ≈ 0.4822. -/
theorem s4_variance :
    npVariance (s4Predictions.map ModelPrediction.raw_score) = 217/450 := by
  norm_num [s4Predictions, npVariance, listMean]

/-- The S4 uncertainty is √(217/450). -/
theorem s4_uncertainty :
    ensemble_uncertainty (s4Predictions.map ModelPrediction.raw_score) =
      Real.sqrt ((217:ℝ)/450) := by
  unfold ensemble_uncertainty
  rw [if_pos (by simp [s4Predictions]), s4_variance]
  norm_num

/-- C8 counterexample: for raw scores [0.9, −0.8, 0.1] the computed standard
deviation is √(217/450) ≈ 0.694; it differs from the claimed 0.78 by more
than 0.05, so σ is not approximately 0.78 even at a generous tolerance. -/
theorem C8_counterexample :
    |ensemble_uncertainty (s4Predictions.map ModelPrediction.raw_score) - 78/100|
      > 5/100 := by
  rw [s4_uncertainty]
  have h1 : Real.sqrt ((217:ℝ)/450) < 7/10 :=
    (Real.sqrt_lt' (by norm_num)).mpr (by norm_num)
  have h0 : (0:ℝ) ≤ Real.sqrt ((217:ℝ)/450) := Real.sqrt_nonneg _
  rw [abs_sub_comm, abs_of_pos (by linarith)]
  linarith

/-- C8 (amended): for raw scores [0.9, −0.8, 0.1], σ = √(217/450) lies
strictly between 0.69 and 0.70 (≈ 0.694, not ≈ 0.78); it exceeds the
default uncertainty threshold 0.30, and the aggregation gate returns the
HOLD decision whose reason reports model disagreement at that σ. -/
theorem C8_uncertainty_gate_holds :
    (69/100 : ℝ) < ensemble_uncertainty (s4Predictions.map ModelPrediction.raw_score)
    ∧ ensemble_uncertainty (s4Predictions.map ModelPrediction.raw_score) < 70/100
    ∧ (30/100 : ℝ) < ensemble_uncertainty (s4Predictions.map ModelPrediction.raw_score)
    ∧ aggregate_uncertainty_gate 1 (30/100) s4Predictions =
        some (.modelDisagreement
          (ensemble_uncertainty (s4Predictions.map ModelPrediction.raw_score))) := by
  have hgt : (30/100 : ℝ) < ensemble_uncertainty
      (s4Predictions.map ModelPrediction.raw_score) := by
    rw [s4_uncertainty]
    exact (Real.lt_sqrt (by norm_num)).mpr (by norm_num)
  refine ⟨?_, ?_, hgt, ?_⟩
  · rw [s4_uncertainty]
    exact (Real.lt_sqrt (by norm_num)).mpr (by norm_num)
  · rw [s4_uncertainty]
    exact (Real.sqrt_lt' (by norm_num)).mpr (by norm_num)
  · unfold aggregate_uncertainty_gate
    rw [if_neg (by simp [s4Predictions])]
    simp only
    rw [if_pos (by push_cast; exact hgt)]

/-! ## Exchange client order placement (`binance_client.py`) and claim C9 -/

/-- `BinanceClient` configuration read by `place_order`; the symbol-precision
rounders `_round_quantity` / `_round_price` (binance_client.py lines
299-323) are carried as functions of the loaded symbol filters. -/
structure ClientConfig where
  dry_run : Bool
  symbol : String := "BTCUSDT"
  roundQuantity : ℚ → ℚ := id
  roundPrice : ℚ → ℚ := id

/-- A successful exchange acknowledgement: the response fields `place_order`
extracts (binance_client.py lines 420-431). -/
structure OrderResponse where
  orderId : Int
  symbol : String
  side : OrderSide
  type : OrderType
  origQty : ℚ
  price : ℚ := 0
  stopPrice : ℚ := 0
  status : OrderStatus
  executedQty : ℚ := 0
  avgPrice : ℚ := 0
deriving DecidableEq, Repr

/-- Outcomes of the up-to-three signed `_request` calls `place_order` makes
(main order, stop-loss child, take-profit child); `Except.error` stands for
any exception raised by `_request` (HTTP error, timeout after retries, …). -/
structure ExchangeOracle where
  mainOrder : Except String OrderResponse
  stopOrder : Except String OrderResponse
  tpOrder : Except String OrderResponse

/-- Python `a or b` on an `Optional[float]`: `None` and `0.0` fall through
to `b`. -/
def pyOrQ (a : Option ℚ) (b : ℚ) : ℚ :=
  match a with
  | some v => if v ≠ 0 then v else b
  | none => b

/-- Embeds `BinanceClient._place_stop_loss` (binance_client.py lines
458-496): sends one reduce-only STOP_MARKET request for the parent; its own
`try/except` turns any failure into `None`.  Returns the child order (if
any) and the updated store; exactly one request is sent either way. -/
def _place_stop_loss (db : OrderStore) (response : Except String OrderResponse)
    (now : ℚ) : Option OrderState × OrderStore :=
  match response with
  | .error _ => (none, db)
  | .ok data =>
      let order_state : OrderState :=
        { order_id := data.orderId, symbol := data.symbol, side := data.side,
          type := .STOP_MARKET, quantity := data.origQty,
          price := some data.stopPrice, status := data.status,
          timestamp := now }
      (some order_state, _save_order_state db order_state)

/-- Embeds `BinanceClient._place_take_profit` (binance_client.py lines
498-536), identical in shape to the stop-loss helper but with type
TAKE_PROFIT_MARKET. -/
def _place_take_profit (db : OrderStore) (response : Except String OrderResponse)
    (now : ℚ) : Option OrderState × OrderStore :=
  match response with
  | .error _ => (none, db)
  | .ok data =>
      let order_state : OrderState :=
        { order_id := data.orderId, symbol := data.symbol, side := data.side,
          type := .TAKE_PROFIT_MARKET, quantity := data.origQty,
          price := some data.stopPrice, status := data.status,
          timestamp := now }
      (some order_state, _save_order_state db order_state)

/-- The `try:` body of `place_order` on the live (non-dry-run) path
(binance_client.py lines 401-456): build params, raise `ValueError` for a
LIMIT order without a price, send the signed order request, persist the
resulting OrderState, then attach the optional stop-loss / take-profit
children (whose failures are swallowed by their own handlers, linking the
child id and re-saving on success).  Returns `Except` for an escaping
exception together with the store as mutated so far and the number of
requests sent. -/
def place_order_try (db : OrderStore) (oracle : ExchangeOracle)
    (_quantity : ℚ) (order_type : OrderType)
    (price stop_loss take_profit : Option ℚ) (now : ℚ) :
    Except String OrderState × OrderStore × Nat :=
  if order_type = .LIMIT ∧ price = none then
    (.error "Price required for LIMIT orders", db, 0)
  else
    match oracle.mainOrder with
    | .error e => (.error e, db, 1)
    | .ok data =>
        let order_state : OrderState :=
          { order_id := data.orderId, symbol := data.symbol, side := data.side,
            type := data.type, quantity := data.origQty, price := some data.price,
            status := data.status, filled_qty := data.executedQty,
            avg_price := data.avgPrice, timestamp := now }
        let db1 := _save_order_state db order_state
        let step1 : OrderState × OrderStore × Nat :=
          if stop_loss.getD 0 ≠ 0 then
            match _place_stop_loss db1 oracle.stopOrder now with
            | (some sl_order, db2) =>
                let updated :=
                  { order_state with stop_loss_order_id := some sl_order.order_id }
                (updated, _save_order_state db2 updated, 2)
            | (none, db2) => (order_state, db2, 2)
          else (order_state, db1, 1)
        let step2 : OrderState × OrderStore × Nat :=
          if take_profit.getD 0 ≠ 0 then
            match _place_take_profit step1.2.1 oracle.tpOrder now with
            | (some tp_order, db3) =>
                let updated :=
                  { step1.1 with take_profit_order_id := some tp_order.order_id }
                (updated, _save_order_state db3 updated, step1.2.2 + 1)
            | (none, db3) => (step1.1, db3, step1.2.2 + 1)
          else step1
        (.ok step2.1, step2.2.1, step2.2.2)

/-- Embeds `BinanceClient.place_order` (binance_client.py lines 350-456):
round the quantity, short-circuit the dry-run simulation (which synthesizes
a FILLED order with `orderId = now·1000`), otherwise run the `try:` body
and map any escaping exception to `None`.  `quantity = 0` is kept verbatim;
the final component counts exchange requests sent. -/
def place_order (cfg : ClientConfig) (db : OrderStore) (oracle : ExchangeOracle)
    (side : OrderSide) (qty : ℚ) (order_type : OrderType)
    (price stop_loss take_profit : Option ℚ) (_reduce_only : Bool) (now : ℚ) :
    Option OrderState × OrderStore × Nat :=
  let quantity := cfg.roundQuantity qty
  if cfg.dry_run then
    let order_state : OrderState :=
      { order_id := ⌊now * 1000⌋, symbol := cfg.symbol, side := side,
        type := order_type, quantity := quantity,
        price := some (pyOrQ price 0), status := .FILLED,
        filled_qty := quantity, avg_price := pyOrQ price 50000,
        timestamp := now }
    (some order_state, _save_order_state db order_state, 0)
  else
    match place_order_try db oracle quantity order_type price stop_loss take_profit now with
    | (.ok o, db', n) => (some o, db', n)
    | (.error _, db', n) => (none, db', n)

/-- C9: `place_order` never propagates an exception to its caller — whenever
the `try:` body ends in an error, the wrapper returns `None` — and on the
live path a LIMIT order with `price = None` is rejected by the raise before
any exchange request: the result is `None`, the order store is unchanged,
and zero requests were sent. -/
theorem C9_place_order_swallows_errors (cfg : ClientConfig) (db : OrderStore)
    (oracle : ExchangeOracle) (side : OrderSide) (qty : ℚ)
    (order_type : OrderType) (price stop_loss take_profit : Option ℚ)
    (ro : Bool) (now : ℚ)
    (hlive : cfg.dry_run = false) :
    (∀ e db' n,
      place_order_try db oracle (cfg.roundQuantity qty) order_type
          price stop_loss take_profit now = (.error e, db', n) →
      place_order cfg db oracle side qty order_type price stop_loss take_profit ro now
        = (none, db', n))
    ∧ (order_type = .LIMIT → price = none →
        place_order cfg db oracle side qty order_type price stop_loss take_profit ro now
          = (none, db, 0)) := by
  constructor
  · intro e db' n hbody
    unfold place_order
    rw [hlive]
    simp [hbody]
  · rintro rfl rfl
    unfold place_order place_order_try
    rw [hlive]
    simp

/-- Witness for C9: live config, empty store, a LIMIT order with no price. -/
theorem C9_place_order_swallows_errors_witness :
    (∀ e db' n,
      place_order_try [] ⟨.error "down", .error "down", .error "down"⟩
          (({ dry_run := false } : ClientConfig).roundQuantity 1) .LIMIT
          none none none 0 = (.error e, db', n) →
      place_order { dry_run := false } [] ⟨.error "down", .error "down", .error "down"⟩
          .BUY 1 .LIMIT none none none false 0 = (none, db', n))
    ∧ (OrderType.LIMIT = .LIMIT → (none : Option ℚ) = none →
        place_order { dry_run := false } [] ⟨.error "down", .error "down", .error "down"⟩
          .BUY 1 .LIMIT none none none false 0 = (none, [], 0)) :=
  C9_place_order_swallows_errors { dry_run := false } []
    ⟨.error "down", .error "down", .error "down"⟩ .BUY 1 .LIMIT
    none none none false 0 rfl

end Xylen
